import Mathlib

/-!
Shallow embedding of the MobileBuilder session-orchestration core
(src/agents/db_manager.py, src/agents/generic_agent.py,
src/agents/claude_code.py, and the approval rendezvous of src/app.py),
together with theorems settling the frozen specification claims.

Timestamps are modelled as naturals (the ISO strings used by the code are
totally ordered and only compared), wall-clock durations as rationals
(Python floats, no float-specific behavior is at stake), the SQLite store
as in-memory lists of rows, and the socket broadcasts as explicit event
lists returned by each operation.
-/

namespace MobileBuilder

/-- Message row, from the `Message` dataclass of src/agents/db_manager.py.
Structured stand-in for the JSON metadata string. -/
structure MsgMeta where
  streaming : Bool
  output_type : String
  tool_use_id : Option String
  tool_name : Option String
deriving Repr, DecidableEq

/-- Message dataclass (db_manager.py lines 15-24). -/
structure Message where
  id : String
  session_id : Option String
  type : String
  content : String
  timestamp : Nat
  device_id : Option String
  metadata : Option MsgMeta
deriving Repr, DecidableEq

/-- Session dataclass (db_manager.py lines 26-38). -/
structure Session where
  id : String
  name : String
  start_time : Nat
  end_time : Option Nat
  working_directory : String
  message_count : Nat
  status : String
  total_active_time : Rat
  last_activity : Option Nat
  agent_api_session_id : Option String
deriving Repr, DecidableEq

/-- The SQLite store: the sessions and messages tables. -/
structure DB where
  sessions : List Session
  messages : List Message
deriving Repr, DecidableEq

/-- DatabaseManager.create_session: INSERT, failing (rolled back, False)
on a duplicate primary key. -/
def DB.create_session (db : DB) (s : Session) : DB × Bool :=
  if db.sessions.any (fun t => t.id == s.id) then (db, false)
  else ({ db with sessions := db.sessions ++ [s] }, true)

/-- The keyword fields that the managers pass to update_session; a `none`
field is absent from the UPDATE. -/
structure SessionUpdate where
  end_time : Option (Option Nat)
  status : Option String
  total_active_time : Option Rat
  agent_api_session_id : Option (Option String)
deriving Repr, DecidableEq

def applySessionUpdate (u : SessionUpdate) (s : Session) : Session :=
  { s with
    end_time := u.end_time.getD s.end_time,
    status := u.status.getD s.status,
    total_active_time := u.total_active_time.getD s.total_active_time,
    agent_api_session_id := u.agent_api_session_id.getD s.agent_api_session_id }

/-- DatabaseManager.update_session: UPDATE sessions SET ... WHERE id = sid. -/
def DB.update_session (db : DB) (sid : String) (u : SessionUpdate) : DB :=
  { db with
    sessions := db.sessions.map (fun s => if s.id == sid then applySessionUpdate u s else s) }

/-- DatabaseManager.get_session: SELECT ... WHERE id = sid (first row or None). -/
def DB.get_session (db : DB) (sid : String) : Option Session :=
  db.sessions.find? (fun s => s.id == sid)

/-- DatabaseManager.save_message: INSERT the message row (duplicate key
fails the transaction), then bump the owning session's message_count and
last_activity. -/
def DB.save_message (db : DB) (m : Message) : DB × Bool :=
  if db.messages.any (fun t => t.id == m.id) then (db, false)
  else
    ({ sessions := db.sessions.map (fun s =>
          if some s.id == m.session_id then
            { s with message_count := s.message_count + 1, last_activity := some m.timestamp }
          else s),
       messages := db.messages ++ [m] }, true)

/-- Timestamp order on message rows (ORDER BY timestamp ASC). -/
def msgLE (a b : Message) : Prop := a.timestamp ≤ b.timestamp

instance : DecidableRel msgLE := fun a b => Nat.decLe a.timestamp b.timestamp

instance : IsTotal Message msgLE := ⟨fun a b => Nat.le_total a.timestamp b.timestamp⟩

instance : IsTrans Message msgLE := ⟨fun _ _ _ h h' => Nat.le_trans h h'⟩

/-- DatabaseManager.get_session_messages: rows of the session ordered by
timestamp ascending, LIMIT `limit` (the Python default is 1000). A NULL
session id matches no row under SQL comparison semantics. -/
def DB.get_session_messages (db : DB) (sid : Option String) (limit : Nat) : List Message :=
  match sid with
  | none => []
  | some s => (((db.messages.filter (fun m => m.session_id == some s)).insertionSort msgLE).take limit)

/-- DatabaseManager.has_session_messages: COUNT(*) > 0 for the session. -/
def DB.has_session_messages (db : DB) (sid : Option String) : Bool :=
  match sid with
  | none => false
  | some s => 0 < (db.messages.filter (fun m => m.session_id == some s)).length

/-- DatabaseManager.delete_session: delete the session's messages, tags
and the session row itself. -/
def DB.delete_session (db : DB) (sid : String) : DB :=
  { sessions := db.sessions.filter (fun s => ! (s.id == sid)),
    messages := db.messages.filter (fun m => ! (m.session_id == some sid)) }

/-- Python whitespace, as stripped by str.strip() (ASCII range). -/
def pyIsSpace (c : Char) : Bool :=
  c == ' ' || c == '\t' || c == '\n' || c == '\x0d' || c == '\x0b' || c == '\x0c'

/-- Python str.strip(): drop leading and trailing whitespace. -/
def pyStrip (s : String) : String :=
  String.mk ((((s.toList.dropWhile pyIsSpace).reverse).dropWhile pyIsSpace).reverse)

/-- The guard `if not output or not output.strip()` that suppresses
empty or whitespace-only output in both emit paths. -/
def outputSuppressed (s : String) : Bool :=
  s.isEmpty || (pyStrip s).isEmpty

/-- A Python queue.Queue: `maxsize <= 0` means unbounded. -/
structure PyQueue (α : Type) where
  maxsize : Int
  items : List α
deriving Repr, DecidableEq

/-- queue.Queue() as constructed in both managers' __init__: no capacity
bound. -/
def PyQueue.new (α : Type) : PyQueue α := { maxsize := 0, items := [] }

/-- put(item, timeout=1.0): succeeds unless the queue is bounded and
still full when the bounded wait elapses (queue.Full). -/
def PyQueue.put (q : PyQueue α) (x : α) : PyQueue α × Bool :=
  if q.maxsize ≤ 0 ∨ (q.items.length : Int) < q.maxsize then
    ({ q with items := q.items ++ [x] }, true)
  else (q, false)

/-- An entry of the command queue: (command, client_id, device_id). -/
structure QueuedCommand where
  command : String
  client_id : String
  device_id : Option String
deriving Repr, DecidableEq

/-- A socketio broadcast, as emitted by the managers and the approval
routes. For session_closed, `empty_session` records whether the payload
carries the `'empty_session': True` flag. -/
inductive SockEvent where
  | agent_output (content : String) (session_id : Option String) (output_type : Option String)
  | session_closed (agent_type : String) (empty_session : Bool)
  | session_warning (remaining_seconds : Rat)
  | session_timeout (session_id : Option String)
  | approval_request (approval_id : String) (tool_name : String)
  | approval_decision (approval_id : String) (approved : Bool)
deriving Repr, DecidableEq

/-! GenericAgentManager (src/agents/generic_agent.py): the PTY-backed
transport variant. -/

/-- Mutable state of a GenericAgentManager (fields of __init__, lines
49-67; the process/master_fd handles are abstracted to presence flags). -/
structure GenState where
  is_running : Bool
  current_session_id : Option String
  connected_clients : List String
  command_queue : PyQueue QueuedCommand
  session_start_time : Option Nat
  active_time_start : Option Rat
  total_active_time : Rat
  warning_timers : List Nat
  db : DB
  working_directory : String
  process : Bool
  master_fd : Bool
deriving Repr, DecidableEq

/-- GenericAgentManager.__init__. -/
def GenState.initial (default_dir : String) : GenState :=
  { is_running := false, current_session_id := none, connected_clients := [],
    command_queue := PyQueue.new QueuedCommand, session_start_time := none,
    active_time_start := none, total_active_time := 0, warning_timers := [],
    db := { sessions := [], messages := [] }, working_directory := default_dir,
    process := false, master_fd := false }

/-- Result dictionary returned by start_session / resume_session. -/
structure StartResult where
  success : Bool
  error : Option String
  session_id : Option String
  session_name : Option String
  working_directory : Option String
deriving Repr, DecidableEq

/-- Environment facts that start_session consults: the default directory,
which paths exist, the fresh uuid, the clock, and whether spawning the
transport (pty/Popen, or the SDK event loop) raises. -/
structure StartEnv where
  default_working_dir : String
  dir_exists : String → Bool
  new_session_id : String
  now : Nat
  now_str : String
  spawn_ok : Bool
  spawn_error : String

/-- GenericAgentManager.start_session (lines 69-194). Early return while
running; directory validation after mutating working_directory; session
record persisted before the process is spawned; a spawn exception is
caught and returned as a typed failure with is_running never set. -/
def GenState.start_session (st : GenState) (working_dir : Option String)
    (session_name : Option String) (env : StartEnv) : GenState × StartResult :=
  if st.is_running then
    (st, { success := false, error := some "Session already running",
           session_id := st.current_session_id, session_name := none,
           working_directory := none })
  else
    let wd := working_dir.getD env.default_working_dir
    let st1 := { st with working_directory := wd }
    if ¬ env.dir_exists wd then
      (st1, { success := false, error := some ("Directory does not exist: " ++ wd),
              session_id := none, session_name := none, working_directory := none })
    else
      let sid := env.new_session_id
      let name := session_name.getD ("Session " ++ env.now_str)
      let st2 := { st1 with current_session_id := some sid }
      let sess : Session :=
        { id := sid, name := name, start_time := env.now, end_time := none,
          working_directory := wd, message_count := 0, status := "active",
          total_active_time := 0, last_activity := none, agent_api_session_id := none }
      let st3 := { st2 with db := (st2.db.create_session sess).1 }
      if ¬ env.spawn_ok then
        (st3, { success := false, error := some env.spawn_error, session_id := none,
                session_name := none, working_directory := none })
      else
        let st4 := { st3 with
          is_running := true, session_start_time := some env.now,
          total_active_time := 0, process := true, master_fd := true }
        (st4, { success := true, error := none, session_id := some sid,
                session_name := some name, working_directory := some wd })

/-- Result dictionary returned by connect_client. -/
structure ConnectResult where
  success : Bool
  error : Option String
  session_id : Option String
  history : List Message
deriving Repr, DecidableEq

/-- GenericAgentManager.connect_client (lines 196-221): register the
client and replay the stored history (store default limit 1000). -/
def GenState.connect_client (st : GenState) (client_id : String) : GenState × ConnectResult :=
  if ¬ st.is_running then
    (st, { success := false, error := some "No active session", session_id := none,
           history := [] })
  else
    let st1 := { st with connected_clients :=
                  if st.connected_clients.contains client_id then st.connected_clients
                  else st.connected_clients ++ [client_id] }
    (st1, { success := true, error := none, session_id := st.current_session_id,
            history := st.db.get_session_messages st.current_session_id 1000 })

/-- GenericAgentManager.send_command (lines 229-244): fail while not
running, else a bounded put on the command queue. -/
def GenState.send_command (st : GenState) (command : String) (client_id : String)
    (device_id : Option String) : GenState × Bool :=
  if ¬ st.is_running then (st, false)
  else
    let p := st.command_queue.put ⟨command, client_id, device_id⟩
    ({ st with command_queue := p.1 }, p.2)

/-- Clock values read during end_session. -/
structure EndEnv where
  now : Nat
  now_clock : Rat

/-- GenericAgentManager.end_session (lines 246-352). When any warning has
fired, warning_timers holds booleans (line 499), so the timer.cancel()
loop at line 267 raises AttributeError; the blanket except at line 350
catches it and returns False with no store update, no broadcast and no
state reset. Otherwise: fold the open active-time span into the total,
archive the session if it has messages (status completed/terminated plus
elapsed active time) or delete it when empty, clear the queue, broadcast
session_closed (with the empty_session flag exactly in the delete
branch), and reset to idle. -/
def GenState.end_session (st : GenState) (graceful : Bool) (env : EndEnv) :
    GenState × Bool × List SockEvent :=
  if ¬ st.is_running then (st, false, [])
  else if st.warning_timers ≠ [] then (st, false, [])
  else
    let old_sid := st.current_session_id
    let total := match st.active_time_start with
      | some t0 => st.total_active_time + (env.now_clock - t0)
      | none => st.total_active_time
    let has := match st.current_session_id with
      | some sid => st.db.has_session_messages (some sid)
      | none => false
    let db1 := match st.current_session_id with
      | some sid =>
          if st.db.has_session_messages (some sid) then
            st.db.update_session sid
              { end_time := some (some env.now),
                status := some (if graceful then "completed" else "terminated"),
                total_active_time := some total, agent_api_session_id := none }
          else st.db.delete_session sid
      | none => st.db
    let events := match old_sid with
      | some _ => [SockEvent.session_closed "generic" (! has)]
      | none => []
    ({ st with
       db := db1, warning_timers := [], active_time_start := none,
       total_active_time := total, is_running := false, process := false,
       master_fd := false, session_start_time := none, current_session_id := none,
       command_queue := { st.command_queue with items := [] } },
     true, events)

/-- One effect performed while draining the command queue, in order. -/
inductive Action where
  | save_message (m : Message)
  | transport_write (data : String) (ok : Bool)
deriving Repr, DecidableEq

/-- Identifier/clock facts for one drained command. -/
structure MsgEnv where
  msg_id : String
  now : Nat
  write_ok : Bool

/-- One iteration of GenericAgentManager._process_commands (lines
425-456) on a non-empty queue: dequeue, persist the user Message, then
attempt the PTY write of the command plus newline. -/
def GenState.process_one_command (st : GenState) (env : MsgEnv) :
    GenState × List Action :=
  match st.command_queue.items with
  | [] => (st, [])
  | c :: rest =>
      let m : Message :=
        { id := env.msg_id, session_id := st.current_session_id, type := "user",
          content := c.command, timestamp := env.now, device_id := c.device_id,
          metadata := none }
      let st1 := { st with
                   command_queue := { st.command_queue with items := rest },
                   db := (st.db.save_message m).1 }
      (st1, [Action.save_message m,
             Action.transport_write (c.command ++ "\n") env.write_ok])

/-- GenericAgentManager._emit_output (lines 458-486): suppress empty or
whitespace-only output, else persist an agent Message and broadcast it. -/
def GenState.emit_output (st : GenState) (output : String) (env : MsgEnv) :
    GenState × List SockEvent :=
  if outputSuppressed output then (st, [])
  else
    let m : Message :=
      { id := env.msg_id, session_id := st.current_session_id, type := "agent",
        content := output, timestamp := env.now, device_id := none, metadata := none }
    ({ st with db := (st.db.save_message m).1 },
     [SockEvent.agent_output output st.current_session_id none])

/-! ClaudeSDKManager (src/agents/claude_code.py): the streaming SDK
transport variant. -/

/-- Mutable state of a ClaudeSDKManager (fields of __init__, lines 40-62;
the event loop and SDK client handles are abstracted to presence flags). -/
structure ClState where
  is_running : Bool
  current_session_id : Option String
  current_claude_session_id : Option String
  connected_clients : List String
  command_queue : PyQueue QueuedCommand
  session_start_time : Option Nat
  total_active_time : Rat
  warning_timers : List Nat
  db : DB
  working_directory : String
  event_loop : Bool
  sdk_client : Bool
  has_emitted_init : Bool
deriving Repr, DecidableEq

/-- ClaudeSDKManager.__init__. -/
def ClState.initial (default_dir : String) : ClState :=
  { is_running := false, current_session_id := none, current_claude_session_id := none,
    connected_clients := [], command_queue := PyQueue.new QueuedCommand,
    session_start_time := none, total_active_time := 0, warning_timers := [],
    db := { sessions := [], messages := [] }, working_directory := default_dir,
    event_loop := false, sdk_client := false, has_emitted_init := false }

/-- ClaudeSDKManager.start_session (lines 64-154). Early return while
running; the session record is persisted and is_running set to True
before the event-loop thread is awaited, so an event-loop initialization
failure returns a typed failure while leaving is_running true and the
record active. -/
def ClState.start_session (st : ClState) (working_dir : Option String)
    (session_name : Option String) (env : StartEnv) : ClState × StartResult :=
  if st.is_running then
    (st, { success := false, error := some "Session already running",
           session_id := st.current_session_id, session_name := none,
           working_directory := none })
  else
    let wd := working_dir.getD env.default_working_dir
    let st1 := { st with working_directory := wd }
    if ¬ env.dir_exists wd then
      (st1, { success := false, error := some ("Directory does not exist: " ++ wd),
              session_id := none, session_name := none, working_directory := none })
    else
      let sid := env.new_session_id
      let name := session_name.getD ("Claude Session " ++ env.now_str)
      let st2 := { st1 with current_session_id := some sid }
      let sess : Session :=
        { id := sid, name := name, start_time := env.now, end_time := none,
          working_directory := wd, message_count := 0, status := "active",
          total_active_time := 0, last_activity := none, agent_api_session_id := none }
      let st3 := { st2 with
        db := (st2.db.create_session sess).1, is_running := true,
        session_start_time := some env.now, total_active_time := 0 }
      if ¬ env.spawn_ok then
        (st3, { success := false, error := some "Failed to initialize event loop",
                session_id := none, session_name := none, working_directory := none })
      else
        let st4 := { st3 with event_loop := true }
        (st4, { success := true, error := none, session_id := some sid,
                session_name := some name, working_directory := some wd })

/-- ClaudeSDKManager.connect_client (lines 316-341): same shape as the
PTY variant. -/
def ClState.connect_client (st : ClState) (client_id : String) : ClState × ConnectResult :=
  if ¬ st.is_running then
    (st, { success := false, error := some "No active session", session_id := none,
           history := [] })
  else
    let st1 := { st with connected_clients :=
                  if st.connected_clients.contains client_id then st.connected_clients
                  else st.connected_clients ++ [client_id] }
    (st1, { success := true, error := none, session_id := st.current_session_id,
            history := st.db.get_session_messages st.current_session_id 1000 })

/-- ClaudeSDKManager.send_command (lines 349-370). -/
def ClState.send_command (st : ClState) (command : String) (client_id : String)
    (device_id : Option String) : ClState × Bool :=
  if ¬ st.is_running then (st, false)
  else
    let p := st.command_queue.put ⟨command, client_id, device_id⟩
    ({ st with command_queue := p.1 }, p.2)

/-- ClaudeSDKManager.end_session (lines 935-1011). As in the PTY variant,
warning_timers holds booleans (line 1024), so once any warning has fired
the timer.cancel() loop at line 946 raises AttributeError, caught by the
except at line 1009: return False, nothing mutated, nothing broadcast.
Otherwise: close the SDK client and event loop, then unconditionally
finalize the session record with completed/terminated status (no
empty-session delete), clear the queue, broadcast session_closed with no
empty_session flag, and reset. -/
def ClState.end_session (st : ClState) (graceful : Bool) (env : EndEnv) :
    ClState × Bool × List SockEvent :=
  if ¬ st.is_running then (st, false, [])
  else if st.warning_timers ≠ [] then (st, false, [])
  else
    let old_sid := st.current_session_id
    let db1 := match st.current_session_id with
      | some sid =>
          st.db.update_session sid
            { end_time := some (some env.now),
              status := some (if graceful then "completed" else "terminated"),
              total_active_time := some st.total_active_time,
              agent_api_session_id := none }
      | none => st.db
    let events := match old_sid with
      | some _ => [SockEvent.session_closed "claude" false]
      | none => []
    ({ st with
       db := db1, warning_timers := [], is_running := false,
       session_start_time := none, current_session_id := none,
       current_claude_session_id := none, sdk_client := false,
       event_loop := false, has_emitted_init := false,
       command_queue := { st.command_queue with items := [] } },
     true, events)

/-- One iteration of ClaudeSDKManager._process_commands (lines 443-485):
dequeue, persist the user Message, then schedule the SDK query. -/
def ClState.process_one_command (st : ClState) (env : MsgEnv) :
    ClState × List Action :=
  match st.command_queue.items with
  | [] => (st, [])
  | c :: rest =>
      let m : Message :=
        { id := env.msg_id, session_id := st.current_session_id, type := "user",
          content := c.command, timestamp := env.now, device_id := c.device_id,
          metadata := none }
      let st1 := { st with
                   command_queue := { st.command_queue with items := rest },
                   db := (st.db.save_message m).1 }
      (st1, [Action.save_message m, Action.transport_write c.command env.write_ok])

/-- ClaudeSDKManager._emit_streaming_output (lines 844-888): suppress
empty or whitespace-only output, else persist an agent Message tagged
with streaming metadata and broadcast it with its output type. -/
def ClState.emit_streaming_output (st : ClState) (output : String)
    (output_type : String) (tool_use_id : Option String) (tool_name : Option String)
    (env : MsgEnv) : ClState × List SockEvent :=
  if outputSuppressed output then (st, [])
  else
    let m : Message :=
      { id := env.msg_id, session_id := st.current_session_id, type := "agent",
        content := output, timestamp := env.now, device_id := none,
        metadata := some { streaming := true, output_type := output_type,
                           tool_use_id := tool_use_id, tool_name := tool_name } }
    ({ st with db := (st.db.save_message m).1 },
     [SockEvent.agent_output output st.current_session_id (some output_type)])

/-- A content block of an SDK UserMessage, as inspected by
_stream_sdk_response (lines 695-725). -/
inductive UserBlock where
  | toolResult (content : String) (is_error : Bool) (tool_use_id : String)
  | other (text : String)
deriving Repr, DecidableEq

/-- ToolResultBlock formatting (claude_code.py lines 704-716): errors pass
through; non-error results longer than 500 characters are cut to a
500-character preview plus a truncation marker carrying the original
length. Returns the emitted content and its output type. -/
def formatToolResult (tool_result : String) (is_error : Bool) : String × String :=
  if is_error then
    ("Tool Error\n" ++ tool_result, "tool_error")
  else if 500 < tool_result.length then
    ("Tool Result\n" ++ (tool_result.take 500 ++ "...") ++ "\nResult truncated - "
       ++ toString tool_result.length ++ " characters total", "tool_result")
  else
    ("Tool Result\n" ++ tool_result, "tool_result")

/-- The _emit_streaming_output calls made for the blocks of one SDK
UserMessage, in order (claude_code.py lines 696-722). -/
def processUserBlocks (blocks : List UserBlock) : List (String × String) :=
  blocks.map (fun b =>
    match b with
    | UserBlock.toolResult c e _ => formatToolResult c e
    | UserBlock.other s => ("User Message\n" ++ s, "user_message"))

/-! Session watchdog (generic_agent.py lines 488-512 and claude_code.py
lines 1013-1037; identical code). -/

/-- SESSION_MAX_DURATION = 5 hours in seconds. -/
def SESSION_MAX_DURATION : Nat := 5 * 60 * 60

/-- WARNING_INTERVALS (generic_agent.py line 43): 1hr, 30min, 15min,
10min, 5min, 1min of remaining time, checked in this order. -/
def WARNING_INTERVALS : List Nat := [3600, 1800, 900, 600, 300, 60]

/-- Loop body of the `for interval in WARNING_INTERVALS` check: warn and
mark the interval when remaining time is below a not-yet-marked one.
The pair carries (warning_timers keys, warnings emitted this tick). -/
def tickStep (remaining : Rat) (p : List Nat × List Nat) (i : Nat) : List Nat × List Nat :=
  if remaining ≤ (i : Rat) ∧ i ∉ p.1 then
    (p.1 ++ [i], p.2 ++ [i])
  else p

/-- Outcome of one iteration of check_session_time. -/
structure TickOut where
  warned : List Nat
  triggered : List Nat
  timed_out : Bool
deriving Repr, DecidableEq

/-- One iteration of check_session_time: run the warning checks in list
order, then test the hard ceiling. -/
def watchdogTick (warned : List Nat) (remaining : Rat) : TickOut :=
  let p := WARNING_INTERVALS.foldl (tickStep remaining) (warned, [])
  { warned := p.1, triggered := p.2, timed_out := decide (remaining ≤ 0) }

/-- The end_session call the timeout branch makes: graceful=True, only
when the ceiling is hit. -/
def watchdogEndCall (t : TickOut) : Option Bool :=
  if t.timed_out then some true else none

/-- The watchdog loop over a sequence of observed remaining times,
breaking after a timeout tick. Returns the final warning_timers keys and
the concatenated warnings emitted. -/
def watchdogRun (warned : List Nat) : List Rat → List Nat × List Nat
  | [] => (warned, [])
  | r :: rs =>
      let t := watchdogTick warned r
      if t.timed_out then (t.warned, t.triggered)
      else
        let rest := watchdogRun t.warned rs
        (rest.1, t.triggered ++ rest.2)

/-! Approval rendezvous (src/app.py lines 751-935). -/

/-- A pending_approvals entry: request data, the one-shot Event, and the
decision slot. -/
structure PendingApproval where
  tool_name : String
  reason : String
  result : Option (Bool × String)
  event_set : Bool
  timestamp : Nat
deriving Repr, DecidableEq

/-- The module-level pending_approvals dict, keyed by approval id. -/
abbrev PendingMap := List (String × PendingApproval)

/-- Response body of the blocking /api/approve_tools call. -/
structure ApprovalResponse where
  approved : Bool
  reason : String
  http_status : Nat
deriving Repr, DecidableEq

/-- Registration phase of handle_approval_request (lines 770-779): store
the entry under its correlation id (dict assignment replaces any old
entry). -/
def approvalRegister (p : PendingMap) (id : String) (tool : String) (reason : String)
    (now : Nat) : PendingMap :=
  (id, { tool_name := tool, reason := reason, result := none, event_set := false,
         timestamp := now }) :: (List.filter (fun kv => ! (kv.1 == id)) p)

/-- Resolution phase of handle_approval_request (lines 826-851), keyed on
whether the Event fired within the 300s wait. Signaled: read the stored
decision, delete the entry, answer it (500 if the decision slot was never
filled). Timed out: delete the entry and answer denied with the timeout
reason, HTTP 408. -/
def approvalWait (p : PendingMap) (id : String) (signaled : Bool) :
    PendingMap × ApprovalResponse :=
  if signaled then
    let res := (List.lookup id p).bind (fun e => e.result)
    let p1 := List.filter (fun kv => ! (kv.1 == id)) p
    match res with
    | some d => (p1, { approved := d.1, reason := d.2, http_status := 200 })
    | none => (p1, { approved := false, reason := "Internal error processing approval",
                     http_status := 500 })
  else
    (List.filter (fun kv => ! (kv.1 == id)) p,
     { approved := false, reason := "Approval request timed out (5 minutes)",
       http_status := 408 })

/-- Response of the decision endpoint /api/approve_tools/<approval_id>. -/
inductive SubmitResponse where
  | ok (approval_id : String)
  | notFound
deriving Repr, DecidableEq

/-- submit_approval_decision (lines 861-900): 404 when the id is no
longer pending, otherwise store the decision and set the Event. -/
def submitApprovalDecision (p : PendingMap) (id : String) (approved : Bool)
    (reason : String) : PendingMap × SubmitResponse :=
  if (List.lookup id p).isNone then (p, SubmitResponse.notFound)
  else
    (p.map (fun kv =>
       if kv.1 == id then
         (kv.1, { kv.2 with result := some (approved, reason), event_set := true })
       else kv),
     SubmitResponse.ok id)

/-! Concrete states used by the closed witnesses and counterexamples. -/

/-- A sample session row. -/
def sampleSession (sid : String) : Session :=
  { id := sid, name := "s", start_time := 0, end_time := none, working_directory := "/w",
    message_count := 0, status := "active", total_active_time := 0, last_activity := none,
    agent_api_session_id := none }

/-- A sample message row. -/
def sampleMessage (mid sid : String) (ts : Nat) : Message :=
  { id := mid, session_id := some sid, type := "user", content := "hi", timestamp := ts,
    device_id := none, metadata := none }

/-- A PTY-variant manager with a running session g1. -/
def gRunning : GenState :=
  { is_running := true, current_session_id := some "g1", connected_clients := [],
    command_queue := PyQueue.new QueuedCommand, session_start_time := some 0,
    active_time_start := none, total_active_time := 0, warning_timers := [],
    db := { sessions := [sampleSession "g1"], messages := [] },
    working_directory := "/w", process := true, master_fd := true }

/-- A streaming-variant manager with a running session c1. -/
def cRunning : ClState :=
  { is_running := true, current_session_id := some "c1", current_claude_session_id := none,
    connected_clients := [], command_queue := PyQueue.new QueuedCommand,
    session_start_time := some 0, total_active_time := 0, warning_timers := [],
    db := { sessions := [sampleSession "c1"], messages := [] },
    working_directory := "/w", event_loop := true, sdk_client := true,
    has_emitted_init := false }

/-- An environment in which everything would succeed. -/
def envStart : StartEnv :=
  { default_working_dir := "/w", dir_exists := fun _ => true, new_session_id := "n1",
    now := 5, now_str := "t", spawn_ok := true, spawn_error := "spawn failed" }

/-! Helper lemmas. -/

/-- Deleting a key from an association list makes lookups of that key
fail. -/
theorem lookup_filter_out_key (p : PendingMap) (id : String) :
    List.lookup id (List.filter (fun kv => ! (kv.1 == id)) p) = none := by
  induction p with
  | nil => rfl
  | cons kv tl ih =>
      by_cases h : kv.1 = id
      · simpa [List.filter_cons, h] using ih
      · have h2 : (id == kv.1) = false := by
          simpa using fun hh => h hh.symm
        simp [List.filter_cons, h, List.lookup, h2, ih]

/-! Claim C1. -/

/-- C1: while a session is active (is_running true), start_session on
either manager returns the failure result 'Session already running'
carrying the active current_session_id, and returns the state unchanged,
so the active session's identity and the stored Session records are
untouched and at most one active session per agent type can exist. -/
theorem start_session_already_running_fails (gst : GenState) (cst : ClState)
    (wd sn wd' sn' : Option String) (env env' : StartEnv)
    (hg : gst.is_running = true) (hc : cst.is_running = true) :
    gst.start_session wd sn env =
      (gst, { success := false, error := some "Session already running",
              session_id := gst.current_session_id, session_name := none,
              working_directory := none }) ∧
    cst.start_session wd' sn' env' =
      (cst, { success := false, error := some "Session already running",
              session_id := cst.current_session_id, session_name := none,
              working_directory := none }) := by
  refine ⟨?_, ?_⟩
  · simp [GenState.start_session, hg]
  · simp [ClState.start_session, hc]

/-- Closed instance of the C1 theorem on concrete running managers. -/
theorem start_session_already_running_fails_witness :
    gRunning.start_session none none envStart =
      (gRunning, { success := false, error := some "Session already running",
                   session_id := some "g1", session_name := none,
                   working_directory := none }) ∧
    cRunning.start_session none none envStart =
      (cRunning, { success := false, error := some "Session already running",
                   session_id := some "c1", session_name := none,
                   working_directory := none }) :=
  start_session_already_running_fails gRunning cRunning none none none none
    envStart envStart rfl rfl

/-! Claim C4. -/

/-- C4: an approval wait on which the decision event never fires within
the 5-minute timeout resolves as denied with the timeout reason (HTTP
408) and removes the pending entry, and a decision submitted afterwards
for that correlation id — no longer pending — is rejected as not-found
with the map unchanged. -/
theorem approval_timeout_denies_and_removes (p : PendingMap) (id : String)
    (a : Bool) (r : String) :
    (approvalWait p id false).2 =
      { approved := false, reason := "Approval request timed out (5 minutes)",
        http_status := 408 } ∧
    List.lookup id (approvalWait p id false).1 = none ∧
    submitApprovalDecision (approvalWait p id false).1 id a r =
      ((approvalWait p id false).1, SubmitResponse.notFound) := by
  refine ⟨rfl, lookup_filter_out_key p id, ?_⟩
  simp [submitApprovalDecision, approvalWait, lookup_filter_out_key p id]

/-! Claim C9. -/

/-- C9: both managers construct the command queue without a capacity
bound (queue.Queue(), maxsize 0), so whenever the session is running,
send_command appends the command to the queue and returns True — the
queue.Full branch after the 1-second bounded put is unreachable. -/
theorem send_command_enqueues_never_full (gst : GenState) (cst : ClState)
    (cmd cid cmd' cid' : String) (did did' : Option String)
    (hgq : gst.command_queue.maxsize ≤ 0) (hcq : cst.command_queue.maxsize ≤ 0)
    (hg : gst.is_running = true) (hc : cst.is_running = true) :
    (PyQueue.new QueuedCommand).maxsize = 0 ∧
    gst.send_command cmd cid did =
      ({ gst with command_queue := { maxsize := gst.command_queue.maxsize,
                                     items := gst.command_queue.items ++ [⟨cmd, cid, did⟩] } },
       true) ∧
    cst.send_command cmd' cid' did' =
      ({ cst with command_queue := { maxsize := cst.command_queue.maxsize,
                                     items := cst.command_queue.items ++ [⟨cmd', cid', did'⟩] } },
       true) := by
  refine ⟨rfl, ?_, ?_⟩
  · simp [GenState.send_command, hg, PyQueue.put, hgq]
  · simp [ClState.send_command, hc, PyQueue.put, hcq]

/-- Closed instance of the C9 theorem on concrete running managers. -/
theorem send_command_enqueues_never_full_witness :
    (PyQueue.new QueuedCommand).maxsize = 0 ∧
    gRunning.send_command "run tests" "clientA" none =
      ({ gRunning with command_queue := { maxsize := gRunning.command_queue.maxsize,
                                          items := gRunning.command_queue.items ++
                                            [⟨"run tests", "clientA", none⟩] } },
       true) ∧
    cRunning.send_command "hello" "clientB" none =
      ({ cRunning with command_queue := { maxsize := cRunning.command_queue.maxsize,
                                          items := cRunning.command_queue.items ++
                                            [⟨"hello", "clientB", none⟩] } },
       true) :=
  send_command_enqueues_never_full gRunning cRunning "run tests" "clientA" "hello" "clientB"
    none none (by decide) (by decide) rfl rfl

/-! Characterizing the whitespace-suppression guard. -/

theorem all_of_dropWhile_all {p : Char → Bool} {l : List Char}
    (h : (l.dropWhile p).all p = true) : l.all p = true := by
  induction l with
  | nil => rfl
  | cons a tl ih =>
      by_cases hp : p a = true
      · rw [List.dropWhile_cons, if_pos hp] at h
        simpa [hp] using ih h
      · rw [List.dropWhile_cons, if_neg hp] at h
        exact h

theorem strip_list_nil_iff (l : List Char) :
    (((l.dropWhile pyIsSpace).reverse).dropWhile pyIsSpace).reverse = [] ↔
      l.all pyIsSpace = true := by
  constructor
  · intro h
    have h1 : ((l.dropWhile pyIsSpace).reverse).dropWhile pyIsSpace = [] := by
      simpa using congrArg List.reverse h
    have h2 : ∀ x ∈ (l.dropWhile pyIsSpace).reverse, pyIsSpace x := by
      rw [List.dropWhile_eq_nil_iff] at h1; exact h1
    have h3 : (l.dropWhile pyIsSpace).all pyIsSpace = true := by
      rw [List.all_eq_true]
      intro x hx
      exact h2 x (List.mem_reverse.mpr hx)
    exact all_of_dropWhile_all h3
  · intro h
    have h1 : l.dropWhile pyIsSpace = [] := by
      rw [List.dropWhile_eq_nil_iff]
      exact fun x hx => List.all_eq_true.mp h x hx
    simp [h1]

/-- The emit-path guard fires exactly on empty or all-whitespace
strings. -/
theorem outputSuppressed_iff (s : String) :
    outputSuppressed s = true ↔ s.toList.all pyIsSpace = true := by
  constructor
  · intro h
    rw [outputSuppressed, Bool.or_eq_true] at h
    rcases h with h1 | h1
    · rw [String.isEmpty_iff] at h1
      subst h1; rfl
    · rw [String.isEmpty_iff] at h1
      have h2 : (((s.toList.dropWhile pyIsSpace).reverse).dropWhile pyIsSpace).reverse = [] :=
        congrArg String.data h1
      exact (strip_list_nil_iff s.toList).mp h2
  · intro h
    have h2 : s.toList.dropWhile pyIsSpace = [] := by
      rw [List.dropWhile_eq_nil_iff]
      exact fun x hx => List.all_eq_true.mp h x hx
    rw [outputSuppressed, pyStrip, Bool.or_eq_true]
    refine Or.inr ?_
    rw [h2]
    rfl

theorem all_space_append_left_false {s : String} (t : String)
    (hs : s.toList.all pyIsSpace = false) :
    (s ++ t).toList.all pyIsSpace = false := by
  have hsplit : (s ++ t).toList = s.toList ++ t.toList := by
    simp [String.toList]
  rw [hsplit, List.all_append, hs, Bool.false_and]

theorem outputSuppressed_append_false {s : String} (t : String)
    (hs : s.toList.all pyIsSpace = false) :
    outputSuppressed (s ++ t) = false := by
  have hall : (s ++ t).toList.all pyIsSpace = false := all_space_append_left_false t hs
  rw [Bool.eq_false_iff]
  intro hc
  rw [outputSuppressed_iff, hall] at hc
  cases hc

/-! Claim C7. -/

/-- C7: a string that is empty or consists only of whitespace is
suppressed by the output-emission path of both transport variants: no
Message is persisted, no broadcast is emitted, and the manager state is
returned unchanged. -/
theorem whitespace_output_not_emitted (gst : GenState) (cst : ClState)
    (output : String) (ot : String) (tid tn : Option String) (env env' : MsgEnv)
    (h : output.toList.all pyIsSpace = true) :
    gst.emit_output output env = (gst, []) ∧
    cst.emit_streaming_output output ot tid tn env' = (cst, []) := by
  have hsup : outputSuppressed output = true := (outputSuppressed_iff output).mpr h
  refine ⟨?_, ?_⟩
  · simp [GenState.emit_output, hsup]
  · simp [ClState.emit_streaming_output, hsup]

/-- A sample environment for persisted messages. -/
def envMsg : MsgEnv := { msg_id := "m1", now := 7, write_ok := true }

/-- Closed instance of the C7 theorem on a whitespace-only string. -/
theorem whitespace_output_not_emitted_witness :
    gRunning.emit_output " \t\n " envMsg = (gRunning, []) ∧
    cRunning.emit_streaming_output " \t\n " "streaming" none none envMsg = (cRunning, []) :=
  whitespace_output_not_emitted gRunning cRunning " \t\n " "streaming" none none
    envMsg envMsg (by decide)

/-! Claim C5. -/

/-- C5: when the single queue consumer dequeues a command, it persists a
'user' Message carrying the command text before attempting any transport
write (the save_message action strictly precedes the transport_write
action), and the message is in the store afterwards regardless of
whether the write succeeds; this holds for both transport variants. -/
theorem command_persisted_before_transport_write (gst : GenState) (cst : ClState)
    (c c' : QueuedCommand) (rest rest' : List QueuedCommand) (env env' : MsgEnv)
    (hq : gst.command_queue.items = c :: rest)
    (hq' : cst.command_queue.items = c' :: rest')
    (hid : gst.db.messages.any (fun t => t.id == env.msg_id) = false)
    (hid' : cst.db.messages.any (fun t => t.id == env'.msg_id) = false) :
    (∃ m : Message,
      (gst.process_one_command env).2 =
        [Action.save_message m, Action.transport_write (c.command ++ "\n") env.write_ok] ∧
      m.type = "user" ∧ m.content = c.command ∧ m.device_id = c.device_id ∧
      m ∈ (gst.process_one_command env).1.db.messages) ∧
    (∃ m' : Message,
      (cst.process_one_command env').2 =
        [Action.save_message m', Action.transport_write c'.command env'.write_ok] ∧
      m'.type = "user" ∧ m'.content = c'.command ∧ m'.device_id = c'.device_id ∧
      m' ∈ (cst.process_one_command env').1.db.messages) := by
  constructor
  · refine ⟨{ id := env.msg_id, session_id := gst.current_session_id, type := "user",
              content := c.command, timestamp := env.now, device_id := c.device_id,
              metadata := none }, ?_, rfl, rfl, rfl, ?_⟩
    · simp [GenState.process_one_command, hq]
    · simp [GenState.process_one_command, hq, DB.save_message, hid]
  · refine ⟨{ id := env'.msg_id, session_id := cst.current_session_id, type := "user",
              content := c'.command, timestamp := env'.now, device_id := c'.device_id,
              metadata := none }, ?_, rfl, rfl, rfl, ?_⟩
    · simp [ClState.process_one_command, hq']
    · simp [ClState.process_one_command, hq', DB.save_message, hid']

/-- A PTY-variant manager with one queued command. -/
def gQueued : GenState :=
  { gRunning with command_queue := { maxsize := 0, items := [⟨"run tests", "clientA", none⟩] } }

/-- A streaming-variant manager with one queued command. -/
def cQueued : ClState :=
  { cRunning with command_queue := { maxsize := 0, items := [⟨"hello", "clientB", none⟩] } }

/-- Closed instance of the C5 theorem on concrete queued commands. -/
theorem command_persisted_before_transport_write_witness :
    (∃ m : Message,
      (gQueued.process_one_command envMsg).2 =
        [Action.save_message m, Action.transport_write ("run tests" ++ "\n") true] ∧
      m.type = "user" ∧ m.content = "run tests" ∧ m.device_id = none ∧
      m ∈ (gQueued.process_one_command envMsg).1.db.messages) ∧
    (∃ m' : Message,
      (cQueued.process_one_command envMsg).2 =
        [Action.save_message m', Action.transport_write "hello" true] ∧
      m'.type = "user" ∧ m'.content = "hello" ∧ m'.device_id = none ∧
      m' ∈ (cQueued.process_one_command envMsg).1.db.messages) :=
  command_persisted_before_transport_write gQueued cQueued
    ⟨"run tests", "clientA", none⟩ ⟨"hello", "clientB", none⟩ [] [] envMsg envMsg
    rfl rfl (by decide) (by decide)

/-! Claim C8. -/

/-- C8: every tool-result block of a streaming UserMessage gets its own
emission, one per block, whose content is never whitespace-suppressed; a
non-error result longer than 500 characters is emitted as its first 500
characters plus an explicit truncation marker stating the original total
length, while a result of at most 500 characters is emitted in full. -/
theorem tool_result_truncated_beyond_500 :
    (∀ blocks : List UserBlock, (processUserBlocks blocks).length = blocks.length) ∧
    (∀ (content : String) (is_err : Bool) (tid : String),
        processUserBlocks [UserBlock.toolResult content is_err tid] =
          [formatToolResult content is_err]) ∧
    (∀ content : String, 500 < content.length →
        formatToolResult content false =
          ("Tool Result\n" ++ (content.take 500 ++ "...") ++ "\nResult truncated - "
             ++ toString content.length ++ " characters total", "tool_result")) ∧
    (∀ content : String, content.length ≤ 500 →
        formatToolResult content false = ("Tool Result\n" ++ content, "tool_result")) ∧
    (∀ (content : String) (is_err : Bool),
        outputSuppressed (formatToolResult content is_err).1 = false) := by
  refine ⟨?_, ?_, ?_, ?_, ?_⟩
  · intro blocks; simp [processUserBlocks]
  · intro content is_err tid; simp [processUserBlocks]
  · intro content h
    simp [formatToolResult, h]
  · intro content h
    have h2 : ¬ 500 < content.length := by omega
    simp [formatToolResult, h2]
  · intro content is_err
    by_cases he : is_err = true
    · rw [formatToolResult, if_pos he]
      exact outputSuppressed_append_false content (by decide)
    · rw [formatToolResult, if_neg he]
      by_cases hl : 500 < content.length
      · rw [if_pos hl]
        exact outputSuppressed_append_false _
          (all_space_append_left_false _ (all_space_append_left_false _
            (all_space_append_left_false _ (by decide))))
      · rw [if_neg hl]
        exact outputSuppressed_append_false content (by decide)

/-- A 501-character result string. -/
def longResult : String := String.mk (List.replicate 501 'a')

set_option maxRecDepth 4000 in
/-- Closed instance of the C8 theorem: a long result is truncated with a
marker, a short one passes through, neither is suppressed. -/
theorem tool_result_truncated_beyond_500_witness :
    processUserBlocks [UserBlock.toolResult longResult false "t1"] =
      [formatToolResult longResult false] ∧
    formatToolResult longResult false =
      ("Tool Result\n" ++ (longResult.take 500 ++ "...") ++ "\nResult truncated - "
         ++ toString longResult.length ++ " characters total", "tool_result") ∧
    formatToolResult "ok" false = ("Tool Result\n" ++ "ok", "tool_result") ∧
    outputSuppressed (formatToolResult "ok" false).1 = false := by
  have h := tool_result_truncated_beyond_500
  exact ⟨h.2.1 longResult false "t1", h.2.2.1 longResult (by decide),
         h.2.2.2.1 "ok" (by decide), h.2.2.2.2 "ok" false⟩

/-! Store lemmas for the lifecycle claims. -/

/-- Inserting a session under a fresh id makes it retrievable. -/
theorem get_session_create_fresh (db : DB) (s : Session) (sid : String)
    (hsid : s.id = sid)
    (hfresh : db.sessions.any (fun t => t.id == sid) = false) :
    (db.create_session s).1.get_session sid = some s := by
  have hnone : db.sessions.find? (fun t => t.id == sid) = none := by
    rw [List.find?_eq_none]
    intro x hx
    have hx2 := List.any_eq_false.mp hfresh x hx
    simpa using hx2
  rw [DB.create_session, if_neg (by simp [hsid, hfresh])]
  simp [DB.get_session, List.find?_append, hnone, hsid]

theorem find?_update_map (u : SessionUpdate) (sid : String) :
    ∀ l : List Session,
      ((l.map (fun s => if s.id == sid then applySessionUpdate u s else s)).find?
          (fun s => s.id == sid)) =
        (l.find? (fun s => s.id == sid)).map (applySessionUpdate u)
  | [] => rfl
  | s :: tl => by
      by_cases h : s.id = sid
      · simp [h, applySessionUpdate]
      · have hb : (s.id == sid) = false := by simp [h]
        have ih := find?_update_map u sid tl
        simp only [beq_iff_eq] at ih
        simp [hb, h, -List.find?_map, ih]

/-- update_session changes exactly the targeted session, as seen through
get_session. -/
theorem get_session_update_eq (db : DB) (sid : String) (u : SessionUpdate) :
    (db.update_session sid u).get_session sid =
      (db.get_session sid).map (applySessionUpdate u) := by
  rw [DB.update_session, DB.get_session, DB.get_session]
  exact find?_update_map u sid db.sessions

/-- delete_session removes the session from get_session's view. -/
theorem get_session_delete (db : DB) (sid : String) :
    (db.delete_session sid).get_session sid = none := by
  rw [DB.delete_session, DB.get_session]
  induction db.sessions with
  | nil => rfl
  | cons s tl ih =>
      by_cases h : s.id = sid
      · simp [List.filter_cons, h, ih]
      · simp [List.filter_cons, h, ih]

/-! Claim C3: corrected. -/

/-- A PTY-variant manager with no session. -/
def gIdle : GenState := GenState.initial "/w"

/-- A streaming-variant manager with no session. -/
def cIdle : ClState := ClState.initial "/w"

/-- An environment whose transport spawn fails. -/
def envSpawnFail : StartEnv :=
  { default_working_dir := "/w", dir_exists := fun _ => true, new_session_id := "n1",
    now := 5, now_str := "t", spawn_ok := false,
    spawn_error := "OSError: could not spawn process" }

/-- C3 counterexample: on a concrete idle manager whose spawn fails,
start_session does return a typed failure, but the Session record
persisted before the spawn attempt remains in the store with status
'active' (and for the streaming variant is_running even remains true),
contradicting the claim that no half-created active Session record
remains. -/
theorem start_spawn_failure_active_record_cex :
    (gIdle.start_session none none envSpawnFail).2.success = false ∧
    ((gIdle.start_session none none envSpawnFail).1.db.get_session "n1").map Session.status
      = some "active" ∧
    (cIdle.start_session none none envSpawnFail).2.success = false ∧
    (cIdle.start_session none none envSpawnFail).1.is_running = true ∧
    ((cIdle.start_session none none envSpawnFail).1.db.get_session "n1").map Session.status
      = some "active" := by
  decide

/-- C3 amended: when spawning the transport fails during start_session,
the call returns a typed failure result on both managers, and the PTY
variant's is_running stays false; however the Session record created
before the spawn attempt remains persisted with status 'active' in both
variants, and the streaming variant's is_running flag remains true after
its event-loop initialization failure. -/
theorem start_spawn_failure_typed_failure (gst : GenState) (cst : ClState)
    (wd sn wd' sn' : Option String) (env : StartEnv)
    (hg : gst.is_running = false) (hc : cst.is_running = false)
    (hdir : env.dir_exists (wd.getD env.default_working_dir) = true)
    (hdir' : env.dir_exists (wd'.getD env.default_working_dir) = true)
    (hspawn : env.spawn_ok = false)
    (hfg : gst.db.sessions.any (fun t => t.id == env.new_session_id) = false)
    (hfc : cst.db.sessions.any (fun t => t.id == env.new_session_id) = false) :
    (gst.start_session wd sn env).2.success = false ∧
    (gst.start_session wd sn env).2.error = some env.spawn_error ∧
    (gst.start_session wd sn env).1.is_running = false ∧
    ((gst.start_session wd sn env).1.db.get_session env.new_session_id).map Session.status
      = some "active" ∧
    (cst.start_session wd' sn' env).2.success = false ∧
    (cst.start_session wd' sn' env).2.error = some "Failed to initialize event loop" ∧
    (cst.start_session wd' sn' env).1.is_running = true ∧
    ((cst.start_session wd' sn' env).1.db.get_session env.new_session_id).map Session.status
      = some "active" := by
  have hgss := get_session_create_fresh gst.db
      { id := env.new_session_id, name := sn.getD ("Session " ++ env.now_str),
        start_time := env.now, end_time := none,
        working_directory := wd.getD env.default_working_dir, message_count := 0,
        status := "active", total_active_time := 0, last_activity := none,
        agent_api_session_id := none } env.new_session_id rfl hfg
  have hcss := get_session_create_fresh cst.db
      { id := env.new_session_id, name := sn'.getD ("Claude Session " ++ env.now_str),
        start_time := env.now, end_time := none,
        working_directory := wd'.getD env.default_working_dir, message_count := 0,
        status := "active", total_active_time := 0, last_activity := none,
        agent_api_session_id := none } env.new_session_id rfl hfc
  refine ⟨?_, ?_, ?_, ?_, ?_, ?_, ?_, ?_⟩ <;>
    simp [GenState.start_session, ClState.start_session, hg, hc, hdir, hdir', hspawn,
          hgss, hcss]

/-- Closed instance of the amended C3 theorem. -/
theorem start_spawn_failure_typed_failure_witness :
    (gIdle.start_session none none envSpawnFail).2.success = false ∧
    (gIdle.start_session none none envSpawnFail).2.error
      = some envSpawnFail.spawn_error ∧
    (gIdle.start_session none none envSpawnFail).1.is_running = false ∧
    ((gIdle.start_session none none envSpawnFail).1.db.get_session
        envSpawnFail.new_session_id).map Session.status = some "active" ∧
    (cIdle.start_session none none envSpawnFail).2.success = false ∧
    (cIdle.start_session none none envSpawnFail).2.error
      = some "Failed to initialize event loop" ∧
    (cIdle.start_session none none envSpawnFail).1.is_running = true ∧
    ((cIdle.start_session none none envSpawnFail).1.db.get_session
        envSpawnFail.new_session_id).map Session.status = some "active" :=
  start_spawn_failure_typed_failure gIdle cIdle none none none none envSpawnFail
    rfl rfl rfl rfl rfl (by decide) (by decide)

/-! Claim C2: corrected. -/

/-- Clock values for a concrete end_session. -/
def envEnd : EndEnv := { now := 9, now_clock := 3 }

/-- C2 counterexample: the streaming ClaudeSDKManager, ending a concrete
active session with zero persisted messages, does not delete the Session
record — getSession afterwards still returns it, finalized as completed —
and its session_closed broadcast carries no empty-session flag,
contradicting the claim for that transport variant. -/
theorem claude_end_keeps_empty_session_cex :
    cRunning.db.has_session_messages (some "c1") = false ∧
    ((cRunning.end_session true envEnd).1.db.get_session "c1").isSome = true ∧
    ((cRunning.end_session true envEnd).1.db.get_session "c1").map Session.status
      = some "completed" ∧
    (cRunning.end_session true envEnd).2.2 = [SockEvent.session_closed "claude" false] := by
  decide

/-- C2 amended: ending an active session finalizes or discards it only
when no session-time warning has fired yet; once warning_timers is
non-empty, end_session on either variant aborts on the timer.cancel()
AttributeError and returns False with the store, the broadcast and the
state untouched. With no warning fired, the PTY-backed
GenericAgentManager deletes the Session record entirely when zero
messages were persisted (getSession afterwards returns none) and
broadcasts session_closed flagged empty_session; with at least one
message it finalizes the record with status completed (graceful) or
terminated (non-graceful), the end time and the elapsed active time, and
broadcasts session_closed without the flag. The streaming
ClaudeSDKManager instead always finalizes the record this way — even
with zero messages — and its session_closed broadcast never carries the
empty-session flag. -/
theorem end_session_empty_deleted_or_archived (gst : GenState) (cst : ClState)
    (graceful graceful' : Bool) (env env' : EndEnv) (sid sid' : String)
    (hg : gst.is_running = true) (hgid : gst.current_session_id = some sid)
    (hgt : gst.warning_timers = [])
    (hc : cst.is_running = true) (hcid : cst.current_session_id = some sid')
    (hct : cst.warning_timers = []) :
    (∀ (gst' : GenState) (g : Bool) (e : EndEnv), gst'.is_running = true →
        gst'.warning_timers ≠ [] → gst'.end_session g e = (gst', false, [])) ∧
    (∀ (cst' : ClState) (g : Bool) (e : EndEnv), cst'.is_running = true →
        cst'.warning_timers ≠ [] → cst'.end_session g e = (cst', false, [])) ∧
    (gst.end_session graceful env).2.1 = true ∧
    (gst.db.has_session_messages (some sid) = false →
        (gst.end_session graceful env).1.db.get_session sid = none ∧
        (gst.end_session graceful env).2.2 = [SockEvent.session_closed "generic" true]) ∧
    (gst.db.has_session_messages (some sid) = true →
        (gst.end_session graceful env).2.2 = [SockEvent.session_closed "generic" false] ∧
        ((gst.end_session graceful env).1.db.get_session sid).map Session.status
          = (gst.db.get_session sid).map
              (fun _ => if graceful then "completed" else "terminated") ∧
        ((gst.end_session graceful env).1.db.get_session sid).map Session.end_time
          = (gst.db.get_session sid).map (fun _ => some env.now) ∧
        ((gst.end_session graceful env).1.db.get_session sid).map Session.total_active_time
          = (gst.db.get_session sid).map (fun _ =>
              match gst.active_time_start with
              | some t0 => gst.total_active_time + (env.now_clock - t0)
              | none => gst.total_active_time)) ∧
    (cst.end_session graceful' env').2.1 = true ∧
    (cst.end_session graceful' env').2.2 = [SockEvent.session_closed "claude" false] ∧
    ((cst.end_session graceful' env').1.db.get_session sid').map Session.status
      = (cst.db.get_session sid').map
          (fun _ => if graceful' then "completed" else "terminated") ∧
    ((cst.end_session graceful' env').1.db.get_session sid').map Session.end_time
      = (cst.db.get_session sid').map (fun _ => some env'.now) := by
  refine ⟨?_, ?_, ?_, ?_, ?_, ?_, ?_, ?_, ?_⟩
  · intro gst' g e h1 h2
    simp [GenState.end_session, h1, h2]
  · intro cst' g e h1 h2
    simp [ClState.end_session, h1, h2]
  · simp [GenState.end_session, hg, hgt]
  · intro hmsg
    refine ⟨?_, ?_⟩
    · simp [GenState.end_session, hg, hgt, hgid, hmsg, get_session_delete]
    · simp [GenState.end_session, hg, hgt, hgid, hmsg]
  · intro hmsg
    rcases hx : gst.db.get_session sid with _ | s0 <;>
      refine ⟨?_, ?_, ?_, ?_⟩ <;>
        simp [GenState.end_session, hg, hgt, hgid, hmsg, get_session_update_eq, hx,
              applySessionUpdate]
  · simp [ClState.end_session, hc, hct]
  · simp [ClState.end_session, hc, hct, hcid]
  · rcases hx : cst.db.get_session sid' with _ | s0 <;>
      simp [ClState.end_session, hc, hct, hcid, get_session_update_eq, hx, applySessionUpdate]
  · rcases hx : cst.db.get_session sid' with _ | s0 <;>
      simp [ClState.end_session, hc, hct, hcid, get_session_update_eq, hx, applySessionUpdate]

/-- A PTY-variant manager whose session g1 has one persisted message. -/
def gRunningMsgs : GenState :=
  { gRunning with
    db := { sessions := [sampleSession "g1"], messages := [sampleMessage "m0" "g1" 3] } }

/-- A PTY-variant manager past its first warning threshold. -/
def gWarned : GenState := { gRunning with warning_timers := [3600] }

/-- Closed instance of the amended C2 theorem: an empty session is
deleted and flagged, a non-empty one is archived completed, the
streaming variant archives as terminated on a non-graceful end, and a
manager with a fired warning aborts the end with nothing changed. -/
theorem end_session_empty_deleted_or_archived_witness :
    (gRunning.end_session true envEnd).1.db.get_session "g1" = none ∧
    (gRunning.end_session true envEnd).2.2 = [SockEvent.session_closed "generic" true] ∧
    ((gRunningMsgs.end_session true envEnd).1.db.get_session "g1").map Session.status
      = some "completed" ∧
    ((cRunning.end_session false envEnd).1.db.get_session "c1").map Session.status
      = some "terminated" ∧
    gWarned.end_session true envEnd = (gWarned, false, []) := by
  have h1 := end_session_empty_deleted_or_archived gRunning cRunning true false envEnd envEnd
      "g1" "c1" rfl rfl rfl rfl rfl rfl
  have h2 := end_session_empty_deleted_or_archived gRunningMsgs cRunning true false envEnd envEnd
      "g1" "c1" rfl rfl rfl rfl rfl rfl
  refine ⟨(h1.2.2.2.1 (by decide)).1, (h1.2.2.2.1 (by decide)).2, ?_, ?_, ?_⟩
  · have h3 := (h2.2.2.2.2.1 (by decide)).2.1
    rw [h3]; decide
  · have h4 := h2.2.2.2.2.2.2.2.1
    rw [h4]; decide
  · exact h1.1 gWarned true envEnd rfl (by decide)

/-! Claim C10. -/

theorem get_session_messages_length_le (db : DB) (sid : Option String) (limit : Nat) :
    (db.get_session_messages sid limit).length ≤ limit := by
  cases sid with
  | none => simp [DB.get_session_messages]
  | some s =>
      simp only [DB.get_session_messages]
      exact List.length_take_le _ _

theorem get_session_messages_sorted (db : DB) (sid : Option String) (limit : Nat) :
    List.Sorted msgLE (db.get_session_messages sid limit) := by
  cases sid with
  | none => simp [DB.get_session_messages, List.Sorted]
  | some s =>
      have hs : List.Sorted msgLE
          ((db.messages.filter (fun m => m.session_id == some s)).insertionSort msgLE) :=
        List.sorted_insertionSort msgLE _
      simp only [DB.get_session_messages]
      exact hs.sublist (List.take_sublist _ _)

theorem get_session_messages_length_eq (db : DB) (s : String) (limit : Nat)
    (h : limit < (db.messages.filter (fun m => m.session_id == some s)).length) :
    (db.get_session_messages (some s) limit).length = limit := by
  simp only [DB.get_session_messages]
  rw [List.length_take]
  have hperm : ((db.messages.filter (fun m => m.session_id == some s)).insertionSort
      msgLE).length = (db.messages.filter (fun m => m.session_id == some s)).length :=
    (List.perm_insertionSort msgLE _).length_eq
  omega

/-- C10: the history replayed to a connecting client by connect_client,
on either transport variant, is the store's default retrieval of at most
1000 messages ordered ascending by timestamp; a session holding more
than 1000 persisted messages replays exactly 1000 of them, not its full
history. -/
theorem connect_client_history_bounded_sorted (gst : GenState) (cst : ClState)
    (cid cid' : String)
    (hg : gst.is_running = true) (hc : cst.is_running = true) :
    (gst.connect_client cid).2.history.length ≤ 1000 ∧
    List.Sorted msgLE (gst.connect_client cid).2.history ∧
    (∀ sid, gst.current_session_id = some sid →
      1000 < (gst.db.messages.filter (fun m => m.session_id == some sid)).length →
      (gst.connect_client cid).2.history.length = 1000) ∧
    (cst.connect_client cid').2.history.length ≤ 1000 ∧
    List.Sorted msgLE (cst.connect_client cid').2.history ∧
    (∀ sid, cst.current_session_id = some sid →
      1000 < (cst.db.messages.filter (fun m => m.session_id == some sid)).length →
      (cst.connect_client cid').2.history.length = 1000) := by
  refine ⟨?_, ?_, ?_, ?_, ?_, ?_⟩
  · simp only [GenState.connect_client, hg]
    simpa using get_session_messages_length_le gst.db gst.current_session_id 1000
  · simp only [GenState.connect_client, hg]
    simpa using get_session_messages_sorted gst.db gst.current_session_id 1000
  · intro sid hsid hlen
    simp only [GenState.connect_client, hg, hsid]
    simpa using get_session_messages_length_eq gst.db sid 1000 hlen
  · simp only [ClState.connect_client, hc]
    simpa using get_session_messages_length_le cst.db cst.current_session_id 1000
  · simp only [ClState.connect_client, hc]
    simpa using get_session_messages_sorted cst.db cst.current_session_id 1000
  · intro sid hsid hlen
    simp only [ClState.connect_client, hc, hsid]
    simpa using get_session_messages_length_eq cst.db sid 1000 hlen

/-- Closed instance of the C10 theorem on concrete running managers. -/
theorem connect_client_history_bounded_sorted_witness :
    (gRunning.connect_client "clientA").2.history.length ≤ 1000 ∧
    List.Sorted msgLE (gRunning.connect_client "clientA").2.history ∧
    (∀ sid, gRunning.current_session_id = some sid →
      1000 < (gRunning.db.messages.filter (fun m => m.session_id == some sid)).length →
      (gRunning.connect_client "clientA").2.history.length = 1000) ∧
    (cRunning.connect_client "clientB").2.history.length ≤ 1000 ∧
    List.Sorted msgLE (cRunning.connect_client "clientB").2.history ∧
    (∀ sid, cRunning.current_session_id = some sid →
      1000 < (cRunning.db.messages.filter (fun m => m.session_id == some sid)).length →
      (cRunning.connect_client "clientB").2.history.length = 1000) :=
  connect_client_history_bounded_sorted gRunning cRunning "clientA" "clientB" rfl rfl

/-! Claim C6. -/

/-- The condition under which one warning check fires. -/
def tickCond (r : Rat) (w : List Nat) (i : Nat) : Bool :=
  decide (r ≤ (i : Rat) ∧ i ∉ w)

theorem tickStep_foldl (r : Rat) :
    ∀ (l : List Nat) (w t : List Nat), l.Nodup →
      l.foldl (tickStep r) (w, t) =
        (w ++ l.filter (tickCond r w), t ++ l.filter (tickCond r w))
  | [], w, t, _ => by simp
  | a :: l, w, t, hnd => by
      have ha : a ∉ l := (List.nodup_cons.mp hnd).1
      have hnd' : l.Nodup := (List.nodup_cons.mp hnd).2
      by_cases hc : r ≤ (a : Rat) ∧ a ∉ w
      · have h1 : tickStep r (w, t) a = (w ++ [a], t ++ [a]) := by
          simp [tickStep, hc]
        have h2 : l.filter (tickCond r (w ++ [a])) = l.filter (tickCond r w) := by
          apply List.filter_congr
          intro i hi
          have hne : i ≠ a := fun hh => ha (hh ▸ hi)
          simp [tickCond, List.mem_append, hne]
        have h3 : tickCond r w a = true := by
          simp only [tickCond, decide_eq_true_eq]
          exact hc
        rw [List.foldl_cons, h1, tickStep_foldl r l (w ++ [a]) (t ++ [a]) hnd', h2,
            List.filter_cons, h3]
        simp
      · have h1 : tickStep r (w, t) a = (w, t) := by
          simp only [tickStep, ite_eq_right_iff]
          intro hcc
          exact absurd hcc hc
        have h3 : tickCond r w a = false := by
          simp only [tickCond, decide_eq_false_iff_not]
          exact hc
        rw [List.foldl_cons, h1, tickStep_foldl r l w t hnd', List.filter_cons, h3]
        simp

/-- One watchdog iteration fires exactly the not-yet-marked thresholds
at or above the remaining time, in list order, and marks them. -/
theorem watchdogTick_triggered (w : List Nat) (r : Rat) :
    (watchdogTick w r).triggered = WARNING_INTERVALS.filter (tickCond r w) ∧
    (watchdogTick w r).warned = w ++ WARNING_INTERVALS.filter (tickCond r w) := by
  have h := tickStep_foldl r WARNING_INTERVALS w [] (by decide)
  constructor <;> simp [watchdogTick, h]

theorem watchdogRun_count_zero (i : Nat) :
    ∀ (rs : List Rat) (w : List Nat), i ∈ w →
      List.count i (watchdogRun w rs).2 = 0
  | [], w, hw => by simp [watchdogRun]
  | r :: rs, w, hw => by
      have ht := watchdogTick_triggered w r
      have hcount : List.count i (watchdogTick w r).triggered = 0 := by
        rw [ht.1]
        apply List.count_eq_zero_of_not_mem
        intro hmem
        rw [List.mem_filter] at hmem
        have h2 := hmem.2
        rw [tickCond, decide_eq_true_eq] at h2
        exact h2.2 hw
      have hw' : i ∈ (watchdogTick w r).warned := by
        rw [ht.2]; exact List.mem_append_left _ hw
      rw [watchdogRun]
      by_cases hto : (watchdogTick w r).timed_out = true
      · rw [if_pos hto]; exact hcount
      · rw [if_neg hto]
        simp [List.count_append, hcount, watchdogRun_count_zero i rs _ hw']

theorem watchdogRun_count_char (i : Nat) (hi : i ∈ WARNING_INTERVALS) :
    ∀ (rs : List Rat) (w : List Nat), i ∉ w →
      List.count i (watchdogRun w rs).2 =
        if rs.any (fun r => decide (r ≤ (i : Rat))) then 1 else 0
  | [], w, hw => by simp [watchdogRun]
  | r :: rs, w, hw => by
      have ht := watchdogTick_triggered w r
      by_cases hr : r ≤ (i : Rat)
      · have hcond : tickCond r w i = true := by
          simp only [tickCond, decide_eq_true_eq]
          exact ⟨hr, hw⟩
        have hcount : List.count i (watchdogTick w r).triggered = 1 := by
          rw [ht.1, List.count_filter hcond]
          exact List.count_eq_one_of_mem (by decide) hi
        have hw' : i ∈ (watchdogTick w r).warned := by
          rw [ht.2]
          refine List.mem_append_right _ ?_
          rw [List.mem_filter]
          exact ⟨hi, hcond⟩
        have hany : (r :: rs).any (fun r => decide (r ≤ (i : Rat))) = true := by
          simp [hr]
        by_cases hto : (watchdogTick w r).timed_out = true
        · simp [watchdogRun, hto, hcount, hany]
        · simp [watchdogRun, hto, List.count_append, hcount,
                watchdogRun_count_zero i rs _ hw', hany]
      · have hcond : tickCond r w i = false := by
          simp only [tickCond, decide_eq_false_iff_not]
          rintro ⟨hle, -⟩
          exact hr hle
        have hcount : List.count i (watchdogTick w r).triggered = 0 := by
          rw [ht.1]
          apply List.count_eq_zero_of_not_mem
          intro hmem
          rw [List.mem_filter, hcond] at hmem
          exact absurd hmem.2 (by simp)
        have hto : (watchdogTick w r).timed_out = false := by
          have h0 : ¬ r ≤ 0 := fun h0 => hr (le_trans h0 (Nat.cast_nonneg i))
          simp [watchdogTick, h0]
        have hw' : i ∉ (watchdogTick w r).warned := by
          rw [ht.2, List.mem_append]
          rintro (h1 | h2)
          · exact hw h1
          · rw [List.mem_filter, hcond] at h2
            exact absurd h2.2 (by simp)
        have hany : (r :: rs).any (fun r => decide (r ≤ (i : Rat)))
            = rs.any (fun r => decide (r ≤ (i : Rat))) := by
          simp [hr]
        have hrec := watchdogRun_count_char i hi rs (watchdogTick w r).warned hw'
        rw [hany]
        simp [watchdogRun, hto, List.count_append, hcount, hrec]

/-- C6: the watchdog's warning thresholds are checked in their stored
(descending, largest-remaining-first) order, each fires at most once per
session — exactly once as soon as some observed remaining time is at or
below it, thanks to the already-warned set — and a tick with zero or
negative remaining time is also the one that invokes end_session with
graceful=True. -/
theorem watchdog_warns_once_per_threshold :
    (∀ (w : List Nat) (r : Rat),
        watchdogEndCall (watchdogTick w r) = if r ≤ 0 then some true else none) ∧
    (∀ (w : List Nat) (r : Rat),
        List.Sorted (fun a b : Nat => b ≤ a) (watchdogTick w r).triggered) ∧
    (∀ (rs : List Rat) (i : Nat), i ∈ WARNING_INTERVALS →
        List.count i (watchdogRun [] rs).2 =
          if rs.any (fun r => decide (r ≤ (i : Rat))) then 1 else 0) := by
  refine ⟨?_, ?_, ?_⟩
  · intro w r
    by_cases h : r ≤ 0 <;> simp [watchdogEndCall, watchdogTick, h]
  · intro w r
    rw [List.Sorted, (watchdogTick_triggered w r).1]
    have hWI : List.Pairwise (fun a b : Nat => b ≤ a) WARNING_INTERVALS := by decide
    exact hWI.sublist (List.filter_sublist _)
  · intro rs i hi
    exact watchdogRun_count_char i hi rs [] (by simp)

/-- Closed instance of the C6 theorem: a tick past the ceiling invokes
the graceful end, and the one-hour threshold fires exactly once over a
run that crosses it twice. -/
theorem watchdog_warns_once_per_threshold_witness :
    watchdogEndCall (watchdogTick [] (0 : Rat)) = some true ∧
    List.count 3600 (watchdogRun [] [(3500 : Rat), (3400 : Rat)]).2 = 1 := by
  have h := watchdog_warns_once_per_threshold
  constructor
  · rw [h.1 [] (0 : Rat)]
    norm_num
  · rw [h.2.2 [(3500 : Rat), (3400 : Rat)] 3600 (by decide)]
    norm_num

end MobileBuilder
